import Mathlib

/-!
Verification of the on1OS live installer GUI (`on1os-installer/gui.py`).

The wizard is embedded as an explicit transition system: the configuration
dictionary built in `On1OSInstaller.__init__`, the step cursor, the
users-step entry widgets, and the user interactions (button presses and
widget callbacks) that drive `next_step`, `prev_step` and `show_step`.
The backend invocation of `perform_installation` is embedded as the list
of externally observable effects it produces together with its outcome.
-/

namespace On1OS

/-- The fields of the installation configuration dictionary `self.config`
built in `On1OSInstaller.__init__` (gui.py lines 24-39).  `target_disk`
starts as the Python value `None`, hence an `Option`. -/
structure Config where
  target_disk : Option String
  filesystem : String
  desktop_environment : String
  root_password : String
  username : String
  user_password : String
  user_fullname : String
  hostname : String
  language : String
  keyboard : String
  timezone : String
  mirror_country : String
  install_nvidia : Bool
  install_nonfree : Bool
deriving DecidableEq

/-- The text currently held by the user-account entry widgets created by
`users_step` (gui.py lines 398-432): root password and confirmation, full
name, username, user password and confirmation, computer name. -/
structure Entries where
  root_pass : String
  root_confirm : String
  fullname : String
  username : String
  user_pass : String
  user_confirm : String
  hostname : String
deriving DecidableEq

/-- Character class `[a-z]`. -/
def isLowerAZ (c : Char) : Bool := 'a' ≤ c && c ≤ 'z'

/-- Character class `[0-9]`. -/
def isDigit09 (c : Char) : Bool := '0' ≤ c && c ≤ '9'

/-- Character class `[a-zA-Z]`. -/
def isAlphaAZ (c : Char) : Bool := ('a' ≤ c && c ≤ 'z') || ('A' ≤ c && c ≤ 'Z')

/-- The words matched by the regular-expression body `[a-z][a-z0-9]*`. -/
def usernamePat : List Char → Bool
  | [] => false
  | c :: cs => isLowerAZ c && cs.all (fun d => isLowerAZ d || isDigit09 d)

/-- The words matched by the regular-expression body `[a-zA-Z0-9-]+`. -/
def hostnamePat (l : List Char) : Bool :=
  !l.isEmpty && l.all (fun c => isAlphaAZ c || isDigit09 c || c == '-')

/-- Truthiness of Python `re.match` for an anchored pattern `^body$`.
In Python, `$` matches at the very end of the string or just before a
single newline that ends the string, so `re.match` also accepts the
matched word followed by one final `\n`. -/
def reMatchAnchored (body : List Char → Bool) (s : String) : Bool :=
  body s.toList ||
    (match s.toList.getLast? with
     | some c => c == '\n' && body s.toList.dropLast
     | none => false)

/-- `re.match(r'^[a-z][a-z0-9]*$', s)` as a boolean (gui.py line 164). -/
def reMatchUsername (s : String) : Bool := reMatchAnchored usernamePat s

/-- `re.match(r'^[a-zA-Z0-9-]+$', s)` as a boolean (gui.py line 176). -/
def reMatchHostname (s : String) : Bool := reMatchAnchored hostnamePat s

/-- The users-step checks of `validate_current_step` (gui.py lines 145-178),
returning the text of the first error dialog raised, or `none` when every
check passes (the Python code returns `True` exactly in the `none` case). -/
def validateUsers (e : Entries) : Option String :=
  if e.root_pass = "" then some "Root password is required."
  else if e.root_pass ≠ e.root_confirm then some "Root passwords do not match."
  else if e.username = "" then some "Username is required."
  else if !reMatchUsername e.username then
    some "Username must start with a letter and contain only lowercase letters and numbers."
  else if e.user_pass = "" then some "User password is required."
  else if e.user_pass ≠ e.user_confirm then some "User passwords do not match."
  else if e.hostname = "" then some "Computer name is required."
  else if !reMatchHostname e.hostname then
    some "Computer name can only contain letters, numbers, and hyphens."
  else none

/-- The `update_config` calls performed on successful users-step validation
(gui.py lines 180-185), and equally the direct configuration writes of
`summary_step` (gui.py lines 439-444): both store the entry texts into the
configuration record. -/
def storeEntries (c : Config) (e : Entries) : Config :=
  { c with root_password := e.root_pass, user_password := e.user_pass,
           username := e.username, hostname := e.hostname,
           user_fullname := e.fullname }

/-- Python truthiness of `self.config.get('target_disk')` (gui.py line 142):
false for `None` and for the empty string. -/
def diskTruthy : Option String → Bool
  | none => false
  | some d => d != ""

/-- The mutable state of the wizard: the configuration dictionary, the step
cursor, the users-step entry widgets (absent until `users_step` first runs,
mirroring the `hasattr` guards in the code), and whether the install-step
worker thread running `perform_installation` has been started. -/
structure State where
  config : Config
  current_step : Nat
  entries : Option Entries
  backendInvoked : Bool
deriving DecidableEq

/-- `validate_current_step` (gui.py lines 140-186).  Returns the error
dialog text (`none` exactly when the Python method returns `True`) together
with the configuration after the `update_config` side effects performed on
a successful users-step validation.  Step 5 is the partition step and step
8 the users step, as in the comments of the source. -/
def validate_current_step (s : State) : Option String × Config :=
  if s.current_step = 5 then
    if diskTruthy s.config.target_disk then (none, s.config)
    else (some "Please select a target disk.", s.config)
  else if s.current_step = 8 then
    match s.entries with
    | none => (none, s.config)
    | some e =>
      match validateUsers e with
      | some msg => (some msg, s.config)
      | none => (none, storeEntries s.config e)
  else (none, s.config)

/-- `users_step` (gui.py lines 398-432) creates fresh, empty entry widgets
and pre-fills only the hostname entry with the configured hostname
(gui.py line 432). -/
def freshEntries (h : String) : Entries :=
  { root_pass := "", root_confirm := "", fullname := "", username := "",
    user_pass := "", user_confirm := "", hostname := h }

/-- The state-relevant effects of `show_step` (gui.py lines 105-120)
rendering the step the cursor points at: `users_step` recreates the entry
widgets, `summary_step` (gui.py lines 434-444) copies the entry texts into
the configuration, and `install_step` (gui.py lines 465-483) starts the
worker thread that runs `perform_installation`.  All other steps only
render widgets. -/
def show_step (s : State) : State :=
  if s.current_step = 8 then
    { s with entries := some (freshEntries s.config.hostname) }
  else if s.current_step = 9 then
    match s.entries with
    | none => s
    | some e => { s with config := storeEntries s.config e }
  else if s.current_step = 10 then
    { s with backendInvoked := true }
  else s

/-- `next_step` (gui.py lines 122-133).  The wizard has 11 steps, so the
summary step is index 9 and the install step index 10.  At the summary
step and at every earlier step the cursor advances only when
`validate_current_step` passes; at the install step the handler does
nothing. -/
def next_step (s : State) : State :=
  if s.current_step = 9 then
    match validate_current_step s with
    | (none, c) => show_step { s with config := c, current_step := s.current_step + 1 }
    | (some _, c) => { s with config := c }
  else if s.current_step = 10 then s
  else
    match validate_current_step s with
    | (none, c) => show_step { s with config := c, current_step := s.current_step + 1 }
    | (some _, c) => { s with config := c }

/-- `prev_step` (gui.py lines 135-138): decrements the cursor only when it
is positive, then re-renders. -/
def prev_step (s : State) : State :=
  if 0 < s.current_step then
    show_step { s with current_step := s.current_step - 1 }
  else s

/-- The filesystem catalog of the read-only combobox of `partition_step`
(gui.py line 386). -/
def filesystems : List String := ["ext4", "btrfs", "xfs"]

/-- Language codes offered by `language_step` (gui.py lines 215-226). -/
def languageCodes : List String :=
  ["en_US", "en_GB", "es_ES", "fr_FR", "de_DE", "pt_BR", "it_IT", "ja_JP", "zh_CN", "ru_RU"]

/-- Keyboard codes offered by `keyboard_step` (gui.py lines 239-249). -/
def keyboardCodes : List String :=
  ["us", "gb", "es", "fr", "de", "pt", "it", "jp", "ru"]

/-- Mirror codes offered by `network_step` (gui.py lines 267-276). -/
def mirrorCodes : List String :=
  ["global", "us", "uk", "de", "fr", "jp", "au", "br"]

/-- Timezones offered by `timezone_step` (gui.py lines 290-302). -/
def timezoneNames : List String :=
  ["UTC", "America/New_York", "America/Chicago", "America/Denver",
   "America/Los_Angeles", "Europe/London", "Europe/Paris", "Europe/Berlin",
   "Asia/Tokyo", "Asia/Shanghai", "Australia/Sydney"]

/-- Desktop codes offered by `desktop_step` (gui.py lines 315-320). -/
def desktopCodes : List String := ["xfce", "gnome", "kde", "openbox"]

/-- Python whitespace, as split on by `str.split()` with no argument and
stripped by `str.strip()`. -/
def isPySpace (c : Char) : Bool :=
  c == ' ' || c == '\t' || c == '\n' || c == '\r' || c == '\x0b' || c == '\x0c'

/-- Split a character list at every character satisfying `p`, keeping empty
pieces, as Python `str.split(sep)` does for a one-character separator. -/
def splitBy (p : Char → Bool) (l : List Char) : List (List Char) :=
  l.foldr
    (fun c acc =>
      match acc with
      | [] => if p c then [[], []] else [[c]]
      | w :: rest => if p c then [] :: w :: rest else (c :: w) :: rest)
    [[]]

/-- Python `s.split()`: split on runs of whitespace, discarding empty
words. -/
def pySplit (s : String) : List String :=
  ((splitBy isPySpace s.toList).map String.mk).filter (fun w => w != "")

/-- Python `s.split('\n')`. -/
def pyLines (s : String) : List String :=
  (splitBy (fun c => c == '\n') s.toList).map String.mk

/-- Python `s.strip()`: remove leading and trailing whitespace. -/
def pyStrip (s : String) : String :=
  String.mk (((s.toList.dropWhile isPySpace).reverse.dropWhile isPySpace).reverse)

/-- One user interaction with the wizard: pressing the navigation buttons,
or operating one of the widgets of the currently shown step.  The selection
widgets are read-only comboboxes, radio buttons or checkboxes, so a
selection callback only ever fires with a value from the catalog that step
renders; the disk combobox callback (gui.py lines 380-381) receives the
selected display string.  Typing is only possible into the users-step entry
widgets while that step is shown. -/
inductive Action where
  | next
  | back
  | selectLanguage (v : String)
  | selectKeyboard (v : String)
  | selectMirror (v : String)
  | selectTimezone (v : String)
  | selectDisk (chosen : String)
  | selectFilesystem (v : String)
  | selectDesktop (v : String)
  | setNvidia (b : Bool)
  | setNonfree (b : Bool)
  | editEntries (e : Entries)

/-- Replace the configuration of a state (the effect of `update_config`,
gui.py lines 544-545). -/
def setConfig (s : State) (c : Config) : State := { s with config := c }

/-- The transition function of the wizard.  The disk selection callback
runs `self.disk_var.get().split()[0]`; when the split is empty the Python
expression raises `IndexError` inside the Tk callback and the configuration
stays unchanged, which the `none` branch mirrors. -/
def applyAction (a : Action) (s : State) : State :=
  match a with
  | .next => next_step s
  | .back => prev_step s
  | .selectLanguage v =>
      if s.current_step = 1 ∧ v ∈ languageCodes then
        setConfig s { s.config with language := v } else s
  | .selectKeyboard v =>
      if s.current_step = 2 ∧ v ∈ keyboardCodes then
        setConfig s { s.config with keyboard := v } else s
  | .selectMirror v =>
      if s.current_step = 3 ∧ v ∈ mirrorCodes then
        setConfig s { s.config with mirror_country := v } else s
  | .selectTimezone v =>
      if s.current_step = 4 ∧ v ∈ timezoneNames then
        setConfig s { s.config with timezone := v } else s
  | .selectDisk chosen =>
      if s.current_step = 5 then
        match (pySplit chosen).head? with
        | some w => setConfig s { s.config with target_disk := some w }
        | none => s
      else s
  | .selectFilesystem v =>
      if s.current_step = 5 ∧ v ∈ filesystems then
        setConfig s { s.config with filesystem := v } else s
  | .selectDesktop v =>
      if s.current_step = 6 ∧ v ∈ desktopCodes then
        setConfig s { s.config with desktop_environment := v } else s
  | .setNvidia b =>
      if s.current_step = 7 then
        setConfig s { s.config with install_nvidia := b } else s
  | .setNonfree b =>
      if s.current_step = 7 then
        setConfig s { s.config with install_nonfree := b } else s
  | .editEntries e =>
      if s.current_step = 8 then { s with entries := some e } else s

/-- The configuration dictionary as initialised in `__init__`
(gui.py lines 24-39). -/
def initConfig : Config :=
  { target_disk := none, filesystem := "ext4", desktop_environment := "xfce",
    root_password := "", username := "", user_password := "",
    user_fullname := "", hostname := "on1os", language := "en_US",
    keyboard := "us", timezone := "UTC", mirror_country := "global",
    install_nvidia := false, install_nonfree := false }

/-- The initial state: cursor at the welcome step, no entry widgets yet, no
worker started.  `setup_ui` ends with `show_step` on step 0, which renders
only labels and changes no state. -/
def initState : State :=
  { config := initConfig, current_step := 0, entries := none,
    backendInvoked := false }

/-- The states the wizard can reach from start-up by any sequence of user
interactions. -/
inductive Reachable : State → Prop where
  | init : Reachable initState
  | step (a : Action) {s : State} : Reachable s → Reachable (applyAction a s)

/-- Run a list of user interactions in order. -/
def runActions (s : State) : List Action → State
  | [] => s
  | a :: rest => runActions (applyAction a s) rest

/-- A JSON value as produced for one configuration field by
`json.dump(self.config, f)` (gui.py line 496).  Strings keep the Python
string, booleans stay booleans, `None` becomes null. -/
inductive JValue where
  | str (s : String)
  | bool (b : Bool)
  | null
deriving DecidableEq

/-- The serialized configuration document: `json.dump` writes the fields of
the dictionary in insertion order, the order of `__init__`
(gui.py lines 24-39). -/
def configDocument (c : Config) : List (String × JValue) :=
  [("target_disk", match c.target_disk with | some d => .str d | none => .null),
   ("filesystem", .str c.filesystem),
   ("desktop_environment", .str c.desktop_environment),
   ("root_password", .str c.root_password),
   ("username", .str c.username),
   ("user_password", .str c.user_password),
   ("user_fullname", .str c.user_fullname),
   ("hostname", .str c.hostname),
   ("language", .str c.language),
   ("keyboard", .str c.keyboard),
   ("timezone", .str c.timezone),
   ("mirror_country", .str c.mirror_country),
   ("install_nvidia", .bool c.install_nvidia),
   ("install_nonfree", .bool c.install_nonfree)]

/-- The field names of the serialized configuration document, in order. -/
def configKeys : List String :=
  ["target_disk", "filesystem", "desktop_environment", "root_password",
   "username", "user_password", "user_fullname", "hostname", "language",
   "keyboard", "timezone", "mirror_country", "install_nvidia",
   "install_nonfree"]

/-- The backend script path (gui.py line 488). -/
def backend_script : String := "/usr/local/share/on1os-installer/backend.sh"

/-- The configuration file path (gui.py line 494). -/
def config_file : String := "/tmp/on1os-install-config.json"

/-- One externally observable effect of `perform_installation`
(gui.py lines 485-523): the existence check on the backend script, the
write of the serialized configuration document, an update of the status
label shown to the user, the launch of a process with the given argument
list, or the removal of a file.  The removal constructor exists so that
its absence from every trace can be stated; `perform_installation`
contains no file removal. -/
inductive Effect where
  | checkExists (path : String)
  | writeConfig (path : String) (doc : List (String × JValue))
  | statusUpdate (text : String)
  | spawn (argv : List String)
  | removeFile (path : String)
deriving DecidableEq

/-- Split a character list at the first occurrence of the separator
sequence `sep`, as Python `s.split(sep, 1)` does when the separator occurs;
`none` when it does not occur. -/
def splitOnceList (sep : List Char) : List Char → Option (List Char × List Char)
  | [] => none
  | c :: cs =>
    if sep.isPrefixOf (c :: cs) then some ([], (c :: cs).drop sep.length)
    else
      match splitOnceList sep cs with
      | some (a, b) => some (c :: a, b)
      | none => none

/-- The monitoring loop body (gui.py lines 509-513): a stdout line updates
the status label only when it contains the `"] "` marker, with
`line.split("] ", 1)[1].strip()` as the new status text. -/
def statusOf (line : String) : Option String :=
  match splitOnceList "] ".toList line.toList with
  | some (_, tail) => some (pyStrip (String.mk tail))
  | none => none

/-- One observed execution of the backend process: the stdout lines read by
the monitoring loop while the process ran, the output still unread when the
loop saw the process exit — what `process.communicate()[0]` then returns on
the non-zero path (gui.py line 519) — and the exit code. -/
structure BackendRun where
  outputLines : List String
  remainingOutput : String
  returncode : Int
deriving DecidableEq

/-- The environments a `perform_installation` call can encounter: the
backend script is missing (gui.py lines 489-491), the `try` body raises
after some prefix of the observable effects and the handler reports the
exception text (gui.py lines 522-523), or the backend process runs to
completion. -/
inductive InstallEnv where
  | missingBackend
  | raised (r : BackendRun) (interruptedAt : Nat) (msg : String)
  | ran (r : BackendRun)

/-- The effect trace of a completed backend run: existence check, write of
the configuration document, the initial status text, the process launch
with the script as the only argument-list element (gui.py line 501), then
one status update per marker-bearing stdout line. -/
def runTrace (c : Config) (r : BackendRun) : List Effect :=
  [.checkExists backend_script,
   .writeConfig config_file (configDocument c),
   .statusUpdate "Starting installation...",
   .spawn [backend_script]]
  ++ r.outputLines.filterMap (fun line => (statusOf line).map Effect.statusUpdate)

/-- The two terminal reports of an installation run:
`installation_complete` (gui.py lines 525-532) or `installation_error`
with its diagnostic text (gui.py lines 534-542). -/
inductive Outcome where
  | complete
  | error (msg : String)
deriving DecidableEq

/-- `perform_installation` (gui.py lines 485-523) as the pair of its
observable effect trace and its terminal outcome. -/
def perform_installation (c : Config) (env : InstallEnv) : List Effect × Outcome :=
  match env with
  | .missingBackend =>
      ([.checkExists backend_script],
       .error ("Backend script not found: " ++ backend_script))
  | .raised r k msg => ((runTrace c r).take k, .error msg)
  | .ran r =>
      (runTrace c r,
       if r.returncode = 0 then .complete else .error r.remainingOutput)

/-- The error classes of the backend engine, from spec section 7. -/
inductive StageError where
  | PreconditionFailed (msg : String)
  | ToolExecutionFailed (msg : String)
  | ResourceBusy (msg : String)
deriving DecidableEq

/-- A destructive or mounting operation of the Disk Preparation Stage. -/
inductive DiskOp where
  | wipePartitionTable
  | createPartition
  | format (fs : String)
  | mountWorkRoot
deriving DecidableEq

/-- Modelled from the spec: the Disk Preparation Stage of the backend
installation engine (`/usr/local/share/on1os-installer/backend.sh`), which
is not part of the reviewed sources.  Spec section 4.1: "Preconditions:
device exists and is not the device hosting the live medium itself (must be
checked to avoid self-destruction)", and section 8: "given a target_disk
equal to the live medium source device, Disk Preparation must fail with
PreconditionFailed before any destructive operation runs".  The stage
checks its preconditions first and performs destructive operations only
when they hold; the result is the list of destructive operations performed
and the stage error, if any. -/
def diskPreparation (target_disk live_device : String) (device_present : Bool)
    (fs : String) : List DiskOp × Option StageError :=
  if !device_present then
    ([], some (.PreconditionFailed ("device does not exist: " ++ target_disk)))
  else if target_disk = live_device then
    ([], some (.PreconditionFailed ("target disk hosts the live medium: " ++ target_disk)))
  else
    ([.wipePartitionTable, .createPartition, .format fs, .mountWorkRoot], none)

/-- Containment of a character sequence in a character list. -/
def hasSub (sub : List Char) : List Char → Bool
  | [] => sub.isEmpty
  | c :: cs => sub.isPrefixOf (c :: cs) || hasSub sub cs

/-- Python `'disk' in line`: substring containment. -/
def containsSub (sub s : String) : Bool := hasSub sub.toList s.toList

/-- One iteration of the disk-list loop of `partition_step`
(gui.py lines 366-370): a non-empty lsblk output line mentioning `disk`
and holding at least three whitespace-separated fields contributes the
display string built from its first two fields. -/
def lsblkLineDisk (line : String) : Option String :=
  if line != "" && containsSub "disk" line then
    match pySplit line with
    | name :: size :: _ :: _ => some ("/dev/" ++ name ++ " (" ++ size ++ ")")
    | _ => none
  else none

/-- The disk choices offered by `partition_step` (gui.py lines 362-372):
parsed from the stripped lsblk stdout when the subprocess ran, and the
hard-coded fallback list when running it raised (`none`). -/
def partitionDisks : Option String → List String
  | none => ["/dev/sda (Unknown size)"]
  | some stdout => (pyLines (pyStrip stdout)).filterMap lsblkLineDisk

/-- The target-disk value stored by the disk combobox callback
(gui.py line 381): `self.disk_var.get().split()[0]`, or nothing when the
split is empty and the subscript raises. -/
def selectedTarget (chosen : String) : Option String := (pySplit chosen).head?

/-- The configuration carries exactly the texts of the given entry widgets
in its account fields. -/
def storedFrom (c : Config) (e : Entries) : Prop :=
  c.root_password = e.root_pass ∧ c.user_password = e.user_pass ∧
  c.username = e.username ∧ c.hostname = e.hostname ∧
  c.user_fullname = e.fullname

/-- The inductive invariant of the wizard: the cursor stays in range, the
filesystem stays in its catalog, a selected target disk is never the empty
string, the partition step cannot be left without a truthy target disk,
the entry widgets exist from the users step on, from the summary step on
the entry texts have passed validation and are stored in the
configuration, and once the install worker has started the configuration
is validated. -/
def Inv (s : State) : Prop :=
  s.current_step ≤ 10 ∧
  s.config.filesystem ∈ filesystems ∧
  (∀ d, s.config.target_disk = some d → d ≠ "") ∧
  (6 ≤ s.current_step → diskTruthy s.config.target_disk = true) ∧
  (8 ≤ s.current_step → s.entries.isSome = true) ∧
  (9 ≤ s.current_step →
    ∃ e, s.entries = some e ∧ validateUsers e = none ∧ storedFrom s.config e) ∧
  (s.backendInvoked = true →
    diskTruthy s.config.target_disk = true ∧
    ∃ e, validateUsers e = none ∧ storedFrom s.config e)

/-- The users-step acceptance condition exactly as the specification words
it: required fields present, passwords confirmed, and the username and
hostname regular expressions read as full matches of the entered string. -/
def usersSpecFull (e : Entries) : Prop :=
  e.root_pass ≠ "" ∧ e.root_pass = e.root_confirm ∧
  e.username ≠ "" ∧ usernamePat e.username.toList = true ∧
  e.user_pass ≠ "" ∧ e.user_pass = e.user_confirm ∧
  e.hostname ≠ "" ∧ hostnamePat e.hostname.toList = true

/-- The users-step acceptance condition with the pattern checks read as
Python `re.match` reads them: a full match of the entered string up to one
final newline which `$` also accepts. -/
def usersSpecPy (e : Entries) : Prop :=
  e.root_pass ≠ "" ∧ e.root_pass = e.root_confirm ∧
  e.username ≠ "" ∧ reMatchUsername e.username = true ∧
  e.user_pass ≠ "" ∧ e.user_pass = e.user_confirm ∧
  e.hostname ≠ "" ∧ reMatchHostname e.hostname = true

/-- An effect neither passes a password-bearing argument list to a process
(the only spawn is the bare backend script path) nor removes a file. -/
def effectSafe : Effect → Bool
  | .spawn argv => argv == [backend_script]
  | .removeFile _ => false
  | _ => true

/-- Whether an effect is the removal of a file. -/
def isRemove : Effect → Bool
  | .removeFile _ => true
  | _ => false

instance (e : Entries) : Decidable (usersSpecPy e) := by
  unfold usersSpecPy; infer_instance

instance (e : Entries) : Decidable (usersSpecFull e) := by
  unfold usersSpecFull; infer_instance

/-- Entry texts that pass every users-step check. -/
def demoEntries : Entries :=
  { root_pass := "rootpw", root_confirm := "rootpw", fullname := "Alice Doe",
    username := "alice", user_pass := "userpw", user_confirm := "userpw",
    hostname := "on1os" }

/-- Entry texts whose username ends in a newline: Python `re.match` with an
anchored pattern still accepts it. -/
def newlineEntries : Entries := { demoEntries with username := "a\n" }

/-- A complete interaction sequence: walk to the partition step, pick a
disk, walk to the users step, fill the entries validly, pass the summary
and reach the install step. -/
def demoActions : List Action :=
  [.next, .next, .next, .next, .next,
   .selectDisk "/dev/sda (16G)",
   .next, .next, .next,
   .editEntries demoEntries,
   .next, .next]

/-- The state after the complete demo interaction sequence: the install
step, with the worker started. -/
def demoFinal : State := runActions initState demoActions

/-- The state after pressing Next five times: the partition step, with no
disk selected yet. -/
def demoStep5 : State := runActions initState [.next, .next, .next, .next, .next]

/-- A state on the users step with the demo entry texts typed in. -/
def demoUsersStep : State :=
  runActions initState
    [.next, .next, .next, .next, .next, .selectDisk "/dev/sda (16G)",
     .next, .next, .next, .editEntries demoEntries]

/-- A configuration whose passwords contain shell metacharacters. -/
def metaCfg : Config :=
  { initConfig with root_password := "p@ss;w$rd |&", user_password := "s3cret$(id)" }

/-- A backend run that succeeds after printing one marker line. -/
def okRun : BackendRun :=
  { outputLines := ["[on1os] Partitioning disk"], remainingOutput := "",
    returncode := 0 }

/-- A backend run that fails with diagnostic output. -/
def failRun : BackendRun :=
  { outputLines := [], remainingOutput := "mkfs.ext4 failed on /dev/sda1",
    returncode := 1 }

/-! ## Theorems -/

theorem validateUsers_eq_none_iff (e : Entries) :
    validateUsers e = none ↔ usersSpecPy e := by
  unfold validateUsers usersSpecPy
  split_ifs with h1 h2 h3 h4 h5 h6 h7 h8 <;> simp_all

theorem storedFrom_storeEntries (c : Config) (e : Entries) :
    storedFrom (storeEntries c e) e :=
  ⟨rfl, rfl, rfl, rfl, rfl⟩

theorem runTrace_all_effectSafe (c : Config) (r : BackendRun) :
    (runTrace c r).all effectSafe = true := by
  rw [List.all_eq_true]
  intro eff heff
  rw [runTrace, List.mem_append] at heff
  rcases heff with hfix | hdyn
  · fin_cases hfix <;> simp [effectSafe]
  · rcases List.mem_filterMap.mp hdyn with ⟨line, _, hsome⟩
    cases hst : statusOf line with
    | none => rw [hst] at hsome; cases hsome
    | some t =>
      rw [hst] at hsome
      cases hsome
      rfl

theorem all_effectSafe_take (l : List Effect) (k : Nat)
    (h : l.all effectSafe = true) : (l.take k).all effectSafe = true := by
  rw [List.all_eq_true] at h ⊢
  intro x hx
  exact h x (List.take_subset _ _ hx)

/-- C3: for every configuration whose target disk is the device hosting
the live medium, Disk Preparation fails with PreconditionFailed and
performs no destructive operation, whatever the filesystem and whether the
device-existence check passes. -/
theorem disk_preparation_self_destruction_guard :
    ∀ (live fs : String) (device_present : Bool),
      (diskPreparation live live device_present fs).1 = [] ∧
      ∃ m, (diskPreparation live live device_present fs).2 =
        some (StageError.PreconditionFailed m) := by
  intro live fs dp
  cases dp <;> simp [diskPreparation]

/-- C4: every installation run ends in exactly one of two outcomes;
complete success is reported if and only if the backend process exited
with return code 0, and every other ending is an error report carrying the
diagnostic text: the backend output on a non-zero exit, the exception
message when launching or monitoring raised, and the missing-script
message when the backend script does not exist. -/
theorem installation_outcome_dichotomy :
    ∀ (c : Config) (env : InstallEnv),
      (((perform_installation c env).2 = Outcome.complete) ↔
        (∃ r : BackendRun, env = .ran r ∧ r.returncode = 0)) ∧
      ((perform_installation c env).2 = Outcome.complete ∨
        ∃ m, (perform_installation c env).2 = Outcome.error m) ∧
      (∀ r : BackendRun, r.returncode ≠ 0 →
        (perform_installation c (.ran r)).2 = Outcome.error r.remainingOutput) ∧
      (∀ (r : BackendRun) (k : Nat) (m : String),
        (perform_installation c (.raised r k m)).2 = Outcome.error m) ∧
      ((perform_installation c .missingBackend).2 =
        Outcome.error ("Backend script not found: " ++ backend_script)) := by
  intro c env
  refine ⟨⟨?_, ?_⟩, ?_, ?_, ?_, rfl⟩
  · cases env with
    | missingBackend => intro h; cases h
    | raised r k m => intro h; cases h
    | ran r =>
      intro h
      by_cases h0 : r.returncode = 0
      · exact ⟨r, rfl, h0⟩
      · rw [perform_installation] at h
        simp only [if_neg h0] at h
        cases h
  · rintro ⟨r, rfl, h0⟩
    simp [perform_installation, h0]
  · cases env with
    | missingBackend => exact Or.inr ⟨_, rfl⟩
    | raised r k m => exact Or.inr ⟨_, rfl⟩
    | ran r =>
      by_cases h0 : r.returncode = 0
      · exact Or.inl (by simp [perform_installation, h0])
      · exact Or.inr ⟨r.remainingOutput, by simp [perform_installation, h0]⟩
  · intro r h0
    simp [perform_installation, h0]
  · intro r k m
    rfl

/-- Witness for C4 at concrete runs: a return code 1 yields the error
report with the backend diagnostic; a return code 0 yields completion. -/
theorem installation_outcome_dichotomy_witness :
    (perform_installation initConfig (.ran failRun)).2 =
      Outcome.error "mkfs.ext4 failed on /dev/sda1" ∧
    (perform_installation initConfig (.ran okRun)).2 = Outcome.complete := by
  constructor
  · exact (installation_outcome_dichotomy initConfig (.ran failRun)).2.2.1
      failRun (by decide)
  · exact (installation_outcome_dichotomy initConfig (.ran okRun)).1.mpr
      ⟨okRun, rfl, by decide⟩

/-- C2 counterexample: with passwords containing shell metacharacters, the
run writes the serialized configuration — including both secret password
values — to the temporary configuration file, and no effect of the whole
run removes any file: the credential-bearing file is not removed after
use. -/
theorem credential_file_never_removed :
    Effect.writeConfig config_file (configDocument metaCfg) ∈
      (perform_installation metaCfg (.ran okRun)).1 ∧
    ("root_password", JValue.str "p@ss;w$rd |&") ∈ configDocument metaCfg ∧
    ("user_password", JValue.str "s3cret$(id)") ∈ configDocument metaCfg ∧
    ((perform_installation metaCfg (.ran okRun)).1.all
      (fun eff => !isRemove eff)) = true := by
  refine ⟨?_, ?_, ?_, ?_⟩ <;> decide

/-- C2 amended: for every configuration and environment, the process
argument list of the only spawn is the bare backend script path and no
file removal ever occurs; the serialized document stores both secret
password values and is written to the configuration file by every
completed run; and every status text shown is the fixed initial text or is
derived from a backend stdout line. -/
theorem secrets_out_of_argv_and_file_persists :
    ∀ (c : Config) (env : InstallEnv),
      ((perform_installation c env).1.all effectSafe = true) ∧
      ("root_password", JValue.str c.root_password) ∈ configDocument c ∧
      ("user_password", JValue.str c.user_password) ∈ configDocument c ∧
      (∀ r : BackendRun,
        Effect.writeConfig config_file (configDocument c) ∈
          (perform_installation c (.ran r)).1) ∧
      (∀ (r : BackendRun) (t : String),
        Effect.statusUpdate t ∈ (perform_installation c (.ran r)).1 →
          t = "Starting installation..." ∨
          ∃ line ∈ r.outputLines, statusOf line = some t) := by
  intro c env
  refine ⟨?_, ?_, ?_, ?_, ?_⟩
  · cases env with
    | missingBackend => rfl
    | raised r k m => exact all_effectSafe_take _ k (runTrace_all_effectSafe c r)
    | ran r => exact runTrace_all_effectSafe c r
  · simp [configDocument]
  · simp [configDocument]
  · intro r
    simp [perform_installation, runTrace]
  · intro r t ht
    rw [perform_installation] at ht
    rw [runTrace, List.mem_append] at ht
    rcases ht with hfix | hdyn
    · simp only [List.mem_cons, List.not_mem_nil, or_false] at hfix
      rcases hfix with h | h | h | h
      · exact Effect.noConfusion h
      · exact Effect.noConfusion h
      · exact Or.inl (Effect.statusUpdate.inj h)
      · exact Effect.noConfusion h
    · rcases List.mem_filterMap.mp hdyn with ⟨line, hline, hsome⟩
      cases hst : statusOf line with
      | none => rw [hst] at hsome; cases hsome
      | some u =>
        rw [hst] at hsome
        cases hsome
        exact Or.inr ⟨line, hline, hst⟩

/-- Witness for C2 amended at a concrete run: the whole trace is free of
password-bearing argument lists and of removals, and the one dynamic
status text is derived from the backend marker line. -/
theorem secrets_out_of_argv_witness :
    (perform_installation metaCfg (.ran okRun)).1.all effectSafe = true ∧
    ("Partitioning disk" = "Starting installation..." ∨
      ∃ line ∈ okRun.outputLines, statusOf line = some "Partitioning disk") := by
  refine ⟨(secrets_out_of_argv_and_file_persists metaCfg (.ran okRun)).1, ?_⟩
  exact (secrets_out_of_argv_and_file_persists metaCfg (.ran okRun)).2.2.2.2
    okRun "Partitioning disk" (by decide)

/-- C5 counterexample: entry texts whose username is the letter a followed
by a newline pass every users-step check — Python re.match anchored with a
dollar also accepts one final newline — yet the username is not a full
match of the pattern body, so acceptance is not equivalent to the
full-match reading of the claim. -/
theorem users_validation_newline_counterexample :
    ¬ ((validateUsers newlineEntries = none) ↔ usersSpecFull newlineEntries) := by
  decide

/-- C5 amended: on the users step with entry widgets present, validation
passes if and only if the root password is non-empty and equals its
confirmation, the username is non-empty and the username pattern matches
it up to one final newline (Python dollar semantics), the user password is
non-empty and equals its confirmation, and the hostname is non-empty and
the hostname pattern matches it up to one final newline; on success
exactly the entered values are stored into the configuration record. -/
theorem users_validation_characterization :
    ∀ (e : Entries) (s : State), s.current_step = 8 → s.entries = some e →
      (((validate_current_step s).1 = none) ↔ usersSpecPy e) ∧
      ((validate_current_step s).1 = none →
        (validate_current_step s).2 = storeEntries s.config e ∧
        storedFrom (validate_current_step s).2 e) := by
  intro e s h8 he
  have hv : validate_current_step s =
      (match validateUsers e with
       | some msg => (some msg, s.config)
       | none => (none, storeEntries s.config e)) := by
    simp [validate_current_step, h8, he]
  cases hval : validateUsers e with
  | some msg =>
    rw [hval] at hv
    rw [hv]
    constructor
    · constructor
      · intro h; cases h
      · intro hspec
        have hnone : validateUsers e = none := (validateUsers_eq_none_iff e).mpr hspec
        rw [hval] at hnone
        cases hnone
    · intro h; cases h
  | none =>
    rw [hval] at hv
    rw [hv]
    refine ⟨⟨fun _ => (validateUsers_eq_none_iff e).mp hval, fun _ => rfl⟩, ?_⟩
    exact fun _ => ⟨rfl, storedFrom_storeEntries s.config e⟩

/-- Witness for C5 amended at the demo users-step state: the typed entries
satisfy the acceptance condition, validation passes, and the updated
configuration stores exactly the typed values. -/
theorem users_validation_characterization_witness :
    usersSpecPy demoEntries ∧
    (validate_current_step demoUsersStep).1 = none ∧
    storedFrom (validate_current_step demoUsersStep).2 demoEntries := by
  have h := users_validation_characterization demoEntries demoUsersStep
    (by decide) (by decide)
  have hpass : (validate_current_step demoUsersStep).1 = none :=
    h.1.mpr (by decide)
  exact ⟨by decide, hpass, (h.2 hpass).2⟩

/-- C6 counterexample: the serialized configuration document does not use
the field names of spec section 3 — keyboard_layout, locale and
mirror_region are absent from its key set. -/
theorem config_document_lacks_spec_names :
    ¬ ("locale" ∈ (configDocument initConfig).map Prod.fst ∧
       "keyboard_layout" ∈ (configDocument initConfig).map Prod.fst ∧
       "timezone" ∈ (configDocument initConfig).map Prod.fst ∧
       "mirror_region" ∈ (configDocument initConfig).map Prod.fst) := by
  decide

/-- C6 amended: before the backend process starts, every completed run
writes the configuration as a single serialized document whose field set
is, in order: target_disk, filesystem, desktop_environment, root_password,
username, user_password, user_fullname, hostname, language, keyboard,
timezone, mirror_country, install_nvidia, install_nonfree — with language,
keyboard and mirror_country in place of the locale, keyboard_layout and
mirror_region named by the spec; the write precedes the spawn in the
trace. -/
theorem config_document_keys_and_delivery :
    ∀ (c : Config) (r : BackendRun),
      (configDocument c).map Prod.fst = configKeys ∧
      (perform_installation c (.ran r)).1.take 4 =
        [Effect.checkExists backend_script,
         Effect.writeConfig config_file (configDocument c),
         Effect.statusUpdate "Starting installation...",
         Effect.spawn [backend_script]] := by
  intro c r
  exact ⟨rfl, rfl⟩

theorem inv_init : Inv initState := by
  simp [Inv, initState, initConfig, filesystems]

theorem show_step_current_step (s : State) :
    (show_step s).current_step = s.current_step := by
  rw [show_step]
  split_ifs
  · rfl
  · cases s.entries <;> rfl
  · rfl
  · rfl

theorem storedFrom_congr {c c' : Config} {e : Entries}
    (h : storedFrom c e)
    (h1 : c'.root_password = c.root_password)
    (h2 : c'.user_password = c.user_password)
    (h3 : c'.username = c.username)
    (h4 : c'.hostname = c.hostname)
    (h5 : c'.user_fullname = c.user_fullname) : storedFrom c' e := by
  obtain ⟨a, b, d, f, g⟩ := h
  exact ⟨h1.trans a, h2.trans b, h3.trans d, h4.trans f, h5.trans g⟩

theorem inv_setConfig {s : State} (h : Inv s) (c : Config)
    (hfs : c.filesystem ∈ filesystems)
    (hdisk : c.target_disk = s.config.target_disk)
    (h1 : c.root_password = s.config.root_password)
    (h2 : c.user_password = s.config.user_password)
    (h3 : c.username = s.config.username)
    (h4 : c.hostname = s.config.hostname)
    (h5 : c.user_fullname = s.config.user_fullname) :
    Inv (setConfig s c) := by
  obtain ⟨i1, i2, i3, i4, i5, i6, i7⟩ := h
  refine ⟨i1, hfs, ?_, ?_, i5, ?_, ?_⟩
  · intro d hd
    refine i3 d ?_
    rw [← hdisk]
    exact hd
  · intro hs
    show diskTruthy c.target_disk = true
    rw [hdisk]
    exact i4 hs
  · intro hs
    obtain ⟨e, he, hv, hsf⟩ := i6 hs
    exact ⟨e, he, hv, storedFrom_congr hsf h1 h2 h3 h4 h5⟩
  · intro hb
    obtain ⟨hdt, e, hv, hsf⟩ := i7 hb
    refine ⟨?_, e, hv, storedFrom_congr hsf h1 h2 h3 h4 h5⟩
    show diskTruthy c.target_disk = true
    rw [hdisk]
    exact hdt

theorem inv_next (s : State) (h : Inv s) : Inv (next_step s) := by
  obtain ⟨i1, i2, i3, i4, i5, i6, i7⟩ := h
  by_cases h10 : s.current_step = 10
  · have hn : next_step s = s := by simp [next_step, h10]
    rw [hn]
    exact ⟨i1, i2, i3, i4, i5, i6, i7⟩
  by_cases h9 : s.current_step = 9
  · have hv : validate_current_step s = (none, s.config) := by
      simp [validate_current_step, h9]
    have hn : next_step s =
        show_step { s with config := s.config, current_step := s.current_step + 1 } := by
      simp [next_step, h9, hv]
    rw [hn, h9]
    have hss : show_step { s with config := s.config, current_step := 9 + 1 } =
        { s with current_step := 10, backendInvoked := true } := by
      simp [show_step]
    rw [hss]
    refine ⟨show (10:Nat) ≤ 10 by omega, i2, i3, fun _ => i4 (by omega),
      fun _ => i5 (by omega), fun _ => i6 (by omega), ?_⟩
    intro _
    obtain ⟨e, _, hv', hsf⟩ := i6 (by omega)
    exact ⟨i4 (by omega), e, hv', hsf⟩
  by_cases h8 : s.current_step = 8
  · have hsome := i5 (by omega)
    obtain ⟨e, he⟩ := Option.isSome_iff_exists.mp hsome
    cases hval : validateUsers e with
    | some msg =>
      have hv : validate_current_step s = (some msg, s.config) := by
        simp [validate_current_step, h8, he, hval]
      have hn : next_step s = { s with config := s.config } := by
        simp [next_step, h8, hv]
      rw [hn]
      exact ⟨i1, i2, i3, i4, i5, i6, i7⟩
    | none =>
      have hv : validate_current_step s = (none, storeEntries s.config e) := by
        simp [validate_current_step, h8, he, hval]
      have hn : next_step s =
          show_step { s with config := storeEntries s.config e,
                             current_step := s.current_step + 1 } := by
        simp [next_step, h8, hv]
      rw [hn, h8]
      have hss : show_step { s with config := storeEntries s.config e,
                                    current_step := 8 + 1 } =
          { s with config := storeEntries (storeEntries s.config e) e,
                   current_step := 9 } := by
        simp [show_step, he]
      rw [hss]
      refine ⟨show (9:Nat) ≤ 10 by omega, i2, i3, fun _ => i4 (by omega),
        fun _ => hsome, ?_, ?_⟩
      · intro _
        exact ⟨e, he, hval, storedFrom_storeEntries _ e⟩
      · intro hb
        obtain ⟨hdt, _, _, _⟩ := i7 hb
        exact ⟨hdt, e, hval, storedFrom_storeEntries _ e⟩
  by_cases h5 : s.current_step = 5
  · by_cases hdt : diskTruthy s.config.target_disk = true
    · have hv : validate_current_step s = (none, s.config) := by
        simp [validate_current_step, h5, hdt]
      have hn : next_step s =
          show_step { s with config := s.config, current_step := s.current_step + 1 } := by
        simp [next_step, h5, hv]
      rw [hn, h5]
      have hss : show_step { s with config := s.config, current_step := 5 + 1 } =
          { s with current_step := 6 } := by
        simp [show_step]
      rw [hss]
      refine ⟨show (6:Nat) ≤ 10 by omega, i2, i3, fun _ => hdt,
        fun hc => absurd (show (8:Nat) ≤ 6 from hc) (by omega),
        fun hc => absurd (show (9:Nat) ≤ 6 from hc) (by omega),
        fun hb => i7 hb⟩
    · have hv : validate_current_step s =
          (some "Please select a target disk.", s.config) := by
        simp [validate_current_step, h5, hdt]
      have hn : next_step s = { s with config := s.config } := by
        simp [next_step, h5, hv]
      rw [hn]
      exact ⟨i1, i2, i3, i4, i5, i6, i7⟩
  · have hv : validate_current_step s = (none, s.config) := by
      simp [validate_current_step, h5, h8]
    have hn : next_step s =
        show_step { s with config := s.config, current_step := s.current_step + 1 } := by
      simp [next_step, h9, h10, hv]
    rw [hn]
    by_cases h7 : s.current_step = 7
    · rw [h7]
      have hss : show_step { s with config := s.config, current_step := 7 + 1 } =
          { s with current_step := 8,
                   entries := some (freshEntries s.config.hostname) } := by
        simp [show_step]
      rw [hss]
      refine ⟨show (8:Nat) ≤ 10 by omega, i2, i3, fun _ => i4 (by omega),
        fun _ => rfl,
        fun hc => absurd (show (9:Nat) ≤ 8 from hc) (by omega),
        fun hb => i7 hb⟩
    · have e8 : ¬ (s.current_step + 1 = 8) := by omega
      have e9 : ¬ (s.current_step + 1 = 9) := by omega
      have e10 : ¬ (s.current_step + 1 = 10) := by omega
      have hss : show_step { s with config := s.config, current_step := s.current_step + 1 } =
          { s with current_step := s.current_step + 1 } := by
        simp [show_step, e8, e9, e10]
      rw [hss]
      refine ⟨show s.current_step + 1 ≤ 10 by omega, i2, i3, ?_,
        fun hc => absurd (show 8 ≤ s.current_step + 1 from hc) (by omega),
        fun hc => absurd (show 9 ≤ s.current_step + 1 from hc) (by omega),
        fun hb => i7 hb⟩
      intro hge
      have hge' : 6 ≤ s.current_step + 1 := hge
      exact i4 (by omega)

theorem inv_back (s : State) (h : Inv s) : Inv (prev_step s) := by
  obtain ⟨i1, i2, i3, i4, i5, i6, i7⟩ := h
  by_cases h0 : 0 < s.current_step
  · have hn : prev_step s = show_step { s with current_step := s.current_step - 1 } := by
      simp [prev_step, h0]
    rw [hn]
    by_cases hb8 : s.current_step - 1 = 8
    · have hss : show_step { s with current_step := s.current_step - 1 } =
          { s with current_step := s.current_step - 1,
                   entries := some (freshEntries s.config.hostname) } := by
        simp [show_step, hb8]
      rw [hss]
      refine ⟨show s.current_step - 1 ≤ 10 by omega, i2, i3,
        fun hge => i4 (by omega), fun _ => rfl,
        fun hc => absurd (show 9 ≤ s.current_step - 1 from hc) (by omega),
        fun hb => i7 hb⟩
    by_cases hb9 : s.current_step - 1 = 9
    · have hk10 : s.current_step = 10 := by omega
      obtain ⟨e, he, hv', hsf⟩ := i6 (by omega)
      have hss : show_step { s with current_step := s.current_step - 1 } =
          { s with current_step := s.current_step - 1,
                   config := storeEntries s.config e } := by
        simp [show_step, hb8, hb9, he]
      rw [hss]
      refine ⟨show s.current_step - 1 ≤ 10 by omega, i2, i3,
        fun _ => i4 (by omega), fun _ => i5 (by omega), ?_, ?_⟩
      · intro _
        exact ⟨e, he, hv', storedFrom_storeEntries s.config e⟩
      · intro hb
        exact ⟨i4 (by omega), e, hv', storedFrom_storeEntries s.config e⟩
    · have hb10 : ¬ (s.current_step - 1 = 10) := by omega
      have hss : show_step { s with current_step := s.current_step - 1 } =
          { s with current_step := s.current_step - 1 } := by
        simp [show_step, hb8, hb9, hb10]
      rw [hss]
      refine ⟨show s.current_step - 1 ≤ 10 by omega, i2, i3, ?_, ?_, ?_,
        fun hb => i7 hb⟩
      · intro hge
        have hge' : 6 ≤ s.current_step - 1 := hge
        exact i4 (by omega)
      · intro hge
        have hge' : 8 ≤ s.current_step - 1 := hge
        exact absurd hge' (by omega)
      · intro hge
        have hge' : 9 ≤ s.current_step - 1 := hge
        exact absurd hge' (by omega)
  · have hn : prev_step s = s := by simp [prev_step, h0]
    rw [hn]
    exact ⟨i1, i2, i3, i4, i5, i6, i7⟩

theorem inv_applyAction (a : Action) (s : State) (h : Inv s) :
    Inv (applyAction a s) := by
  cases a with
  | next => exact inv_next s h
  | back => exact inv_back s h
  | selectLanguage v =>
    simp only [applyAction]
    split
    · exact inv_setConfig h _ h.2.1 rfl rfl rfl rfl rfl rfl
    · exact h
  | selectKeyboard v =>
    simp only [applyAction]
    split
    · exact inv_setConfig h _ h.2.1 rfl rfl rfl rfl rfl rfl
    · exact h
  | selectMirror v =>
    simp only [applyAction]
    split
    · exact inv_setConfig h _ h.2.1 rfl rfl rfl rfl rfl rfl
    · exact h
  | selectTimezone v =>
    simp only [applyAction]
    split
    · exact inv_setConfig h _ h.2.1 rfl rfl rfl rfl rfl rfl
    · exact h
  | selectDisk chosen =>
    simp only [applyAction]
    split
    · cases hw : (pySplit chosen).head? with
      | none => exact h
      | some w =>
        have hwm : w ∈ pySplit chosen := List.mem_of_mem_head? hw
        have hwne : w ≠ "" := by
          have := (List.mem_filter.mp hwm).2
          simpa using this
        obtain ⟨i1, i2, i3, i4, i5, i6, i7⟩ := h
        refine ⟨i1, i2, ?_, ?_, i5, ?_, ?_⟩
        · intro d hd
          have hd' : some w = some d := hd
          cases hd'
          exact hwne
        · intro _
          show (w != "") = true
          simpa using hwne
        · intro hs
          obtain ⟨e, he, hv, hsf⟩ := i6 hs
          exact ⟨e, he, hv, storedFrom_congr hsf rfl rfl rfl rfl rfl⟩
        · intro hbk
          obtain ⟨_, e, hv, hsf⟩ := i7 hbk
          refine ⟨?_, e, hv, storedFrom_congr hsf rfl rfl rfl rfl rfl⟩
          show (w != "") = true
          simpa using hwne
    · exact h
  | selectFilesystem v =>
    simp only [applyAction]
    split
    · next hcond => exact inv_setConfig h _ hcond.2 rfl rfl rfl rfl rfl rfl
    · exact h
  | selectDesktop v =>
    simp only [applyAction]
    split
    · exact inv_setConfig h _ h.2.1 rfl rfl rfl rfl rfl rfl
    · exact h
  | setNvidia b =>
    simp only [applyAction]
    split
    · exact inv_setConfig h _ h.2.1 rfl rfl rfl rfl rfl rfl
    · exact h
  | setNonfree b =>
    simp only [applyAction]
    split
    · exact inv_setConfig h _ h.2.1 rfl rfl rfl rfl rfl rfl
    · exact h
  | editEntries e =>
    simp only [applyAction]
    split
    · next h8 =>
      obtain ⟨i1, i2, i3, i4, _, i6, i7⟩ := h
      refine ⟨i1, i2, i3, i4, fun _ => rfl, ?_, fun hb => i7 hb⟩
      intro hge
      have hge' : 9 ≤ s.current_step := hge
      exact absurd hge' (by omega)
    · exact h

theorem reachable_inv {s : State} (h : Reachable s) : Inv s := by
  induction h with
  | init => exact inv_init
  | step a hr ih => exact inv_applyAction a _ ih

theorem reachable_runActions (s : State) (h : Reachable s)
    (acts : List Action) : Reachable (runActions s acts) := by
  induction acts generalizing s with
  | nil => exact h
  | cons a rest ih => exact ih _ (Reachable.step a h)

/-- C1: in every reachable state in which the install-step worker that
invokes the backend script has started, the configuration record has been
fully validated: the target disk is a selected non-empty device, both
passwords are non-empty, each password equals the confirmation it was
entered with, and the stored username and hostname pass their pattern
checks. -/
theorem backend_invoked_implies_validated :
    ∀ s : State, Reachable s → s.backendInvoked = true →
      (∃ d, s.config.target_disk = some d ∧ d ≠ "") ∧
      s.config.root_password ≠ "" ∧
      s.config.user_password ≠ "" ∧
      reMatchUsername s.config.username = true ∧
      reMatchHostname s.config.hostname = true ∧
      ∃ e : Entries, validateUsers e = none ∧
        s.config.root_password = e.root_pass ∧ e.root_pass = e.root_confirm ∧
        s.config.user_password = e.user_pass ∧ e.user_pass = e.user_confirm := by
  intro s h hb
  obtain ⟨hdt, e, hv, hsf⟩ := (reachable_inv h).2.2.2.2.2.2 hb
  obtain ⟨hr, hu, hn, hh, hf⟩ := hsf
  obtain ⟨p1, p2, p3, p4, p5, p6, p7, p8⟩ := (validateUsers_eq_none_iff e).mp hv
  refine ⟨?_, ?_, ?_, ?_, ?_, e, hv, hr, p2, hu, p6⟩
  · cases hd : s.config.target_disk with
    | none => rw [hd] at hdt; simp [diskTruthy] at hdt
    | some d =>
      refine ⟨d, rfl, ?_⟩
      rw [hd] at hdt
      simpa [diskTruthy] using hdt
  · rw [hr]; exact p1
  · rw [hu]; exact p5
  · rw [hn]; exact p4
  · rw [hh]; exact p8

/-- Witness for C1: the demo interaction sequence reaches the install step
with the worker started, and the theorem yields the validated
configuration there. -/
theorem backend_invoked_implies_validated_witness :
    demoFinal.backendInvoked = true ∧
    ((∃ d, demoFinal.config.target_disk = some d ∧ d ≠ "") ∧
      demoFinal.config.root_password ≠ "" ∧
      demoFinal.config.user_password ≠ "" ∧
      reMatchUsername demoFinal.config.username = true ∧
      reMatchHostname demoFinal.config.hostname = true ∧
      ∃ e : Entries, validateUsers e = none ∧
        demoFinal.config.root_password = e.root_pass ∧
        e.root_pass = e.root_confirm ∧
        demoFinal.config.user_password = e.user_pass ∧
        e.user_pass = e.user_confirm) := by
  refine ⟨by decide, ?_⟩
  exact backend_invoked_implies_validated demoFinal
    (reachable_runActions initState Reachable.init demoActions) (by decide)

/-- C7: in every reachable state sitting on the partition step with no
truthy target disk, pressing Next raises the select-a-disk error dialog
and leaves the state — in particular the current step — unchanged; and no
reachable state beyond the partition step has an unset or empty target
disk. -/
theorem empty_disk_blocks_partition_step :
    ∀ s : State, Reachable s →
      (s.current_step = 5 → diskTruthy s.config.target_disk = false →
        (validate_current_step s).1 = some "Please select a target disk." ∧
        next_step s = s) ∧
      (6 ≤ s.current_step → diskTruthy s.config.target_disk = true) := by
  intro s h
  refine ⟨?_, (reachable_inv h).2.2.2.1⟩
  intro h5 hdf
  have hdt : ¬ diskTruthy s.config.target_disk = true := by simp [hdf]
  have hv : validate_current_step s =
      (some "Please select a target disk.", s.config) := by
    simp [validate_current_step, h5, hdt]
  constructor
  · rw [hv]
  · have h9 : ¬ (s.current_step = 9) := by omega
    have h10 : ¬ (s.current_step = 10) := by omega
    simp only [next_step, if_neg h9, if_neg h10, hv]

/-- Witness for C7 at the state reached by five Next presses: the
partition step with no disk selected, where Next errors and does not
move. -/
theorem empty_disk_blocks_partition_step_witness :
    demoStep5.current_step = 5 ∧
    diskTruthy demoStep5.config.target_disk = false ∧
    (validate_current_step demoStep5).1 = some "Please select a target disk." ∧
    next_step demoStep5 = demoStep5 := by
  have h := (empty_disk_blocks_partition_step demoStep5
    (reachable_runActions initState Reachable.init
      [.next, .next, .next, .next, .next])).1 (by decide) (by decide)
  exact ⟨by decide, by decide, h.1, h.2⟩

/-- C8: the configuration filesystem field starts as ext4 and, in every
reachable state, is an element of the closed catalog ext4, btrfs, xfs of
the read-only filesystem selector. -/
theorem filesystem_closed_set_invariant :
    initState.config.filesystem = "ext4" ∧
    ∀ s : State, Reachable s → s.config.filesystem ∈ filesystems := by
  refine ⟨rfl, ?_⟩
  intro s h
  exact (reachable_inv h).2.1

/-- Witness for C8 at the final demo state. -/
theorem filesystem_closed_set_invariant_witness :
    demoFinal.config.filesystem ∈ filesystems :=
  filesystem_closed_set_invariant.2 demoFinal
    (reachable_runActions initState Reachable.init demoActions)

/-- C9: in every reachable state the step cursor is at most 10 (the index
of the install step, the last of the 11 steps); Back at step 0 does not
move, Back at a positive step decrements by one, and Next never moves the
cursor beyond 10. -/
theorem current_step_bounded :
    ∀ s : State, Reachable s →
      s.current_step ≤ 10 ∧
      (s.current_step = 0 → prev_step s = s) ∧
      (0 < s.current_step →
        (prev_step s).current_step = s.current_step - 1) ∧
      (next_step s).current_step ≤ 10 := by
  intro s h
  have hi := reachable_inv h
  have hi' := reachable_inv (Reachable.step Action.next h)
  refine ⟨hi.1, ?_, ?_, hi'.1⟩
  · intro h0
    simp [prev_step, h0]
  · intro h0
    simp [prev_step, h0, show_step_current_step]

/-- Witness for C9 at the final demo state and at a Back press from it. -/
theorem current_step_bounded_witness :
    demoFinal.current_step ≤ 10 ∧
    (next_step demoFinal).current_step ≤ 10 ∧
    (prev_step demoFinal).current_step = demoFinal.current_step - 1 := by
  have h := current_step_bounded demoFinal
    (reachable_runActions initState Reachable.init demoActions)
  exact ⟨h.1, h.2.2.2, h.2.2.1 (by decide)⟩

/-- C10: when running lsblk raises, the partition step offers exactly the
one choice string naming /dev/sda with unknown size, and the selection
callback stores /dev/sda as the target disk. -/
theorem lsblk_failure_fallback_disk :
    partitionDisks none = ["/dev/sda (Unknown size)"] ∧
    (partitionDisks none).length = 1 ∧
    selectedTarget "/dev/sda (Unknown size)" = some "/dev/sda" ∧
    (applyAction (.selectDisk "/dev/sda (Unknown size)") demoStep5).config.target_disk
      = some "/dev/sda" := by
  refine ⟨rfl, rfl, by decide, by decide⟩

end On1OS
